import Mathlib

/-!
Verification of the f1-23-telemetry packet codec (`f1_23_telemetry/packets.py`
and `f1_23_telemetry/listener.py`).

The Python code declares every packet as a `ctypes.LittleEndianStructure`
with `_pack_ = 1` (byte-packed, no padding).  We embed the ctypes type
language shallowly: a `CTy` describes a field type, structs and unions are
cons-chains of named fields, and a fixed-arity ctypes array `T * n` is the
chain of `n` consecutive elements of type `T` (which is exactly its byte
layout under `_pack_ = 1`).  `CTy.size` mirrors `ctypes.sizeof`:
byte-packed sums for structs, maximum for unions.

Decoding (`PacketMixin.unpack` = `cls.from_buffer_copy(buffer)`) succeeds
exactly when the buffer holds at least `sizeof(cls)` bytes and copies the
first `sizeof(cls)` bytes; `pack` (`bytes(self)`) returns the instance's
underlying bytes.  Field access on a decoded instance reads the field's
type at its cumulative offset; when `_fields_` repeats a name, the later
class-attribute descriptor overwrites the earlier one, so named access
resolves to the *last* field with that name.
-/

/-- The ctypes field-type language used by `packets.py`.  `char n` is
`ctypes.c_char * n`; structs are `snil`/`scons` chains of named fields in
declaration order; unions are `unil`/`ucons` chains; a fixed-arity array
`T * n` is expanded by `arrTy` into an `anil`/`acons` chain of `n`
elements. -/
inductive CTy : Type where
  | u8 : CTy
  | i8 : CTy
  | u16 : CTy
  | i16 : CTy
  | u32 : CTy
  | u64 : CTy
  | f32 : CTy
  | f64 : CTy
  | char : Nat → CTy
  | snil : CTy
  | scons : String → CTy → CTy → CTy
  | anil : CTy
  | acons : CTy → CTy → CTy
  | unil : CTy
  | ucons : String → CTy → CTy → CTy
deriving DecidableEq, Repr

/-- `ctypes.sizeof` for `_pack_ = 1` structures: scalar widths, byte-packed
sums for structs and arrays, maximum member size for unions. -/
def CTy.size : CTy → Nat
  | .u8 => 1
  | .i8 => 1
  | .u16 => 2
  | .i16 => 2
  | .u32 => 4
  | .u64 => 8
  | .f32 => 4
  | .f64 => 8
  | .char n => n
  | .snil => 0
  | .scons _ t rest => t.size + rest.size
  | .anil => 0
  | .acons t rest => t.size + rest.size
  | .unil => 0
  | .ucons _ t rest => max t.size rest.size

/-- Build a struct type from a `_fields_` list (declaration order). -/
def structOf (fs : List (String × CTy)) : CTy :=
  fs.foldr (fun f rest => CTy.scons f.1 f.2 rest) CTy.snil

/-- Build a union type from a `_fields_` list. -/
def unionOf (fs : List (String × CTy)) : CTy :=
  fs.foldr (fun f rest => CTy.ucons f.1 f.2 rest) CTy.unil

/-- A ctypes array type `t * n`: `n` consecutive elements of type `t`. -/
def arrTy (t : CTy) : Nat → CTy
  | 0 => CTy.anil
  | n + 1 => CTy.acons t (arrTy t n)

/-- `class PacketHeader(Packet)` (`packets.py` lines 111-147). -/
def PacketHeader : CTy := structOf [
  ("packet_format", .i16),
  ("game_year", .u8),
  ("game_major_version", .u8),
  ("game_minor_version", .u8),
  ("packet_version", .u8),
  ("packet_id", .u8),
  ("session_uid", .u64),
  ("session_time", .f32),
  ("frame_identifier", .u32),
  ("overall_frame_identifier", .u32),
  ("player_car_index", .u8),
  ("secondary_player_car_index", .u8)]

/-- `class CarMotionData(Packet)` (lines 150-194). -/
def CarMotionData : CTy := structOf [
  ("world_position_x", .f32),
  ("world_position_y", .f32),
  ("world_position_z", .f32),
  ("world_velocity_x", .f32),
  ("world_velocity_y", .f32),
  ("world_velocity_z", .f32),
  ("world_forward_dir_x", .i16),
  ("world_forward_dir_y", .i16),
  ("world_forward_dir_z", .i16),
  ("world_right_dir_x", .i16),
  ("world_right_dir_y", .i16),
  ("world_right_dir_z", .i16),
  ("g_force_lateral", .f32),
  ("g_force_longitudinal", .f32),
  ("g_force_vertical", .f32),
  ("yaw", .f32),
  ("pitch", .f32),
  ("roll", .f32)]

/-- `class PacketMotionData(Packet)` (lines 197-209). -/
def PacketMotionData : CTy := structOf [
  ("header", PacketHeader),
  ("car_motion_data", arrTy CarMotionData 22)]

/-- `class MarshalZone(Packet)` (lines 212-227). -/
def MarshalZone : CTy := structOf [
  ("zone_start", .f32),
  ("zone_flag", .i8)]

/-- `class WeatherForecastSample(Packet)` (lines 230-263). -/
def WeatherForecastSample : CTy := structOf [
  ("session_type", .u8),
  ("time_offset", .u8),
  ("weather", .u8),
  ("track_temperature", .i8),
  ("track_temperature_change", .i8),
  ("air_temperature", .i8),
  ("air_temperature_change", .i8),
  ("rain_percentage", .u8)]

/-- `class PacketSessionData(Packet)` (lines 266-390). -/
def PacketSessionData : CTy := structOf [
  ("header", PacketHeader),
  ("weather", .u8),
  ("track_temperature", .i8),
  ("air_temperature", .i8),
  ("total_laps", .u8),
  ("track_length", .u16),
  ("session_type", .u8),
  ("track_id", .i8),
  ("formula", .u8),
  ("session_time_left", .u16),
  ("session_duration", .u16),
  ("pit_speed_limit", .u8),
  ("game_paused", .u8),
  ("is_spectating", .u8),
  ("spectator_car_index", .u8),
  ("sli_pro_native_support", .u8),
  ("num_marshal_zones", .u8),
  ("marshal_zones", arrTy MarshalZone 21),
  ("safety_car_status", .u8),
  ("network_game", .u8),
  ("num_weather_forecast_samples", .u8),
  ("weather_forecast_samples", arrTy WeatherForecastSample 56),
  ("forecast_accuracy", .u8),
  ("ai_difficulty", .u8),
  ("season_link_identifier", .u32),
  ("weekend_link_identifier", .u32),
  ("session_link_identifier", .u32),
  ("pit_stop_window_ideal_lap", .u8),
  ("pit_stop_window_latest_lap", .u8),
  ("pit_stop_rejoin_position", .u8),
  ("steering_assist", .u8),
  ("braking_assist", .u8),
  ("gearbox_assist", .u8),
  ("pit_assist", .u8),
  ("pit_release_assist", .u8),
  ("ers_assist", .u8),
  ("drs_assist", .u8),
  ("dynamic_racing_line", .u8),
  ("dynamic_racing_line_type", .u8),
  ("game_mode", .u8),
  ("rule_set", .u8),
  ("time_of_day", .u32),
  ("session_length", .u8),
  ("speed_units_lead_player", .u8),
  ("temperature_units_lead_player", .u8),
  ("speed_units_secondary_player", .u8),
  ("temperature_units_secondary_player", .u8),
  ("num_safety_car_periods", .u8),
  ("num_virtual_safety_car_periods", .u8),
  ("num_red_flag_periods", .u8)]

/-- `class LapData(Packet)` (lines 393-475). -/
def LapData : CTy := structOf [
  ("last_lap_time_in_ms", .u32),
  ("current_lap_time_in_ms", .u32),
  ("sector_1_time_in_ms", .u16),
  ("sector_1_time_minutes", .u8),
  ("sector_2_time_in_ms", .u16),
  ("sector_2_time_minutes", .u8),
  ("delta_to_car_in_front_in_ms", .u16),
  ("delta_to_race_leader_in_ms", .u16),
  ("lap_distance", .f32),
  ("total_distance", .f32),
  ("safety_car_delta", .f32),
  ("car_position", .u8),
  ("current_lap_num", .u8),
  ("pit_status", .u8),
  ("num_pit_stops", .u8),
  ("sector", .u8),
  ("current_lap_invalid", .u8),
  ("penalties", .u8),
  ("total_warnings", .u8),
  ("corner_cutting_warnings", .u8),
  ("num_unserved_drive_through_pens", .u8),
  ("num_unserved_stop_go_pens", .u8),
  ("grid_position", .u8),
  ("driver_status", .u8),
  ("result_status", .u8),
  ("pit_lane_timer_active", .u8),
  ("pit_lane_time_in_lane_in_ms", .u16),
  ("pit_stop_timer_in_ms", .u16),
  ("pit_stop_should_serve_pen", .u8)]

/-- `class PacketLapData(Packet)` (lines 478-494). -/
def PacketLapData : CTy := structOf [
  ("header", PacketHeader),
  ("lap_data", arrTy LapData 22),
  ("time_trial_pb_car_idx", .u8),
  ("time_trial_rival_car_idx", .u8)]

/-- `class FastestLap(Packet)` (lines 497-501). -/
def FastestLap : CTy := structOf [
  ("vehicle_idx", .u8),
  ("lap_time", .f32)]

/-- `class Retirement(Packet)` (lines 504-507). -/
def Retirement : CTy := structOf [
  ("vehicle_idx", .u8)]

/-- `class TeamMateInPits(Packet)` (lines 510-513). -/
def TeamMateInPits : CTy := structOf [
  ("vehicle_idx", .u8)]

/-- `class RaceWinner(Packet)` (lines 516-519). -/
def RaceWinner : CTy := structOf [
  ("vehicle_idx", .u8)]

/-- `class Penalty(Packet)` (lines 522-537). -/
def Penalty : CTy := structOf [
  ("penalty_type", .u8),
  ("infringement_type", .u8),
  ("vehicle_idx", .u8),
  ("other_vehicle_idx", .u8),
  ("time", .u8),
  ("lap_num", .u8),
  ("places_gained", .u8)]

/-- `class SpeedTrap(Packet)` (lines 540-549). -/
def SpeedTrap : CTy := structOf [
  ("vehicle_idx", .u8),
  ("speed", .f32),
  ("overall_fastest_in_session", .u8),
  ("is_driver_fastest_in_session", .u8),
  ("fastest_vehicle_idx_in_sSession", .u8),
  ("fastest_speed_in_session", .f32)]

/-- `class StartLights(Packet)` (lines 552-555). -/
def StartLights : CTy := structOf [
  ("num_lights", .u8)]

/-- `class DriveThroughPenaltyServed(Packet)` (lines 558-561). -/
def DriveThroughPenaltyServed : CTy := structOf [
  ("vehicle_idx", .u8)]

/-- `class StopGoPenaltyServed(Packet)` (lines 564-567). -/
def StopGoPenaltyServed : CTy := structOf [
  ("vehicle_idx", .u8)]

/-- `class Flashback(Packet)` (lines 570-574). -/
def Flashback : CTy := structOf [
  ("flashback_frame_identifier", .u32),
  ("flashback_session_time", .f32)]

/-- `class Buttons(Packet)` (lines 577-581). -/
def Buttons : CTy := structOf [
  ("button_status", .u32)]

/-- `class OverTake(Packet)` (lines 584-588). -/
def OverTake : CTy := structOf [
  ("overtaking_vehicle_idx", .u8),
  ("being_overtaken_vehicle_idx", .u8)]

/-- `class EventDataDetails(ctypes.Union, PacketMixin)` (lines 591-605):
a C union of the 12 event sub-records, all sharing storage at offset 0. -/
def EventDataDetails : CTy := unionOf [
  ("fastest_lap", FastestLap),
  ("retirement", Retirement),
  ("team_mate_in_pits", TeamMateInPits),
  ("race_winner", RaceWinner),
  ("penalty", Penalty),
  ("speed_trap", SpeedTrap),
  ("start_lights", StartLights),
  ("drive_through_penalty_served", DriveThroughPenaltyServed),
  ("stop_go_penalty_served", StopGoPenaltyServed),
  ("flashback", Flashback),
  ("buttons", Buttons),
  ("overtake", OverTake)]

/-- `class PacketEventData(Packet)` (lines 608-636). -/
def PacketEventData : CTy := structOf [
  ("header", PacketHeader),
  ("event_string_code", arrTy .u8 4),
  ("event_details", EventDataDetails)]

/-- `class ParticipantData(Packet)` (lines 639-671). -/
def ParticipantData : CTy := structOf [
  ("ai_controlled", .u8),
  ("driver_id", .u8),
  ("network_id", .u8),
  ("team_id", .u8),
  ("my_team", .u8),
  ("race_number", .u8),
  ("nationality", .u8),
  ("name", .char 48),
  ("your_telemetry", .u8),
  ("show_online_names", .u8),
  ("platform", .u8)]

/-- `class PacketParticipantsData(Packet)` (lines 674-688). -/
def PacketParticipantsData : CTy := structOf [
  ("header", PacketHeader),
  ("num_active_cars", .u8),
  ("participants", arrTy ParticipantData 22)]

/-- `class CarSetupData(Packet)` (lines 691-743). -/
def CarSetupData : CTy := structOf [
  ("front_wing", .u8),
  ("rear_wing", .u8),
  ("on_throttle", .u8),
  ("off_throttle", .u8),
  ("front_camber", .f32),
  ("rear_camber", .f32),
  ("front_toe", .f32),
  ("rear_toe", .f32),
  ("front_suspension", .u8),
  ("rear_suspension", .u8),
  ("front_anti_roll_bar", .u8),
  ("rear_anti_roll_bar", .u8),
  ("front_suspension_height", .u8),
  ("rear_suspension_height", .u8),
  ("brake_pressure", .u8),
  ("brake_bias", .u8),
  ("rear_left_tyre_pressure", .f32),
  ("rear_right_tyre_pressure", .f32),
  ("front_left_tyre_pressure", .f32),
  ("front_right_tyre_pressure", .f32),
  ("ballast", .u8),
  ("fuel_load", .f32)]

/-- `class PacketCarSetupData(Packet)` (lines 746-758). -/
def PacketCarSetupData : CTy := structOf [
  ("header", PacketHeader),
  ("car_setups", arrTy CarSetupData 22)]

/-- `class CarTelemetryData(Packet)` (lines 761-801). -/
def CarTelemetryData : CTy := structOf [
  ("speed", .u16),
  ("throttle", .f32),
  ("steer", .f32),
  ("brake", .f32),
  ("clutch", .u8),
  ("gear", .i8),
  ("engine_rpm", .u16),
  ("drs", .u8),
  ("rev_lights_percent", .u8),
  ("rev_lights_bit_value", .u16),
  ("brakes_temperature", arrTy .u16 4),
  ("tyres_surface_temperature", arrTy .u8 4),
  ("tyres_inner_temperature", arrTy .u8 4),
  ("engine_temperature", .u16),
  ("tyres_pressure", arrTy .f32 4),
  ("surface_type", arrTy .u8 4)]

/-- `class PacketCarTelemetryData(Packet)` (lines 804-814). -/
def PacketCarTelemetryData : CTy := structOf [
  ("header", PacketHeader),
  ("car_telemetry_data", arrTy CarTelemetryData 22),
  ("mfd_panel_index", .u8),
  ("mfd_panel_index_secondary_player", .u8),
  ("suggested_gear", .i8)]

/-- `class CarStatusData(Packet)` (lines 817-898). -/
def CarStatusData : CTy := structOf [
  ("traction_control", .u8),
  ("anti_lock_brakes", .u8),
  ("fuel_mix", .u8),
  ("front_brake_bias", .u8),
  ("pit_limiter_status", .u8),
  ("fuel_in_tank", .f32),
  ("fuel_capacity", .f32),
  ("fuel_remaining_laps", .f32),
  ("max_rpm", .u16),
  ("idle_rpm", .u16),
  ("max_gears", .u8),
  ("drs_allowed", .u8),
  ("drs_activation_distance", .u16),
  ("actual_tyre_compound", .u8),
  ("visual_tyre_compound", .u8),
  ("tyres_age_laps", .u8),
  ("vehicle_fia_flags", .i8),
  ("engine_power_ice", .f32),
  ("engine_power_mguk", .f32),
  ("ers_store_energy", .f32),
  ("ers_deploy_mode", .u8),
  ("ers_harvested_this_lap_mguk", .f32),
  ("ers_harvested_this_lap_mguh", .f32),
  ("ers_deployed_this_lap", .f32),
  ("network_paused", .u8)]

/-- `class PacketCarStatusData(Packet)` (lines 901-913). -/
def PacketCarStatusData : CTy := structOf [
  ("header", PacketHeader),
  ("car_status_data", arrTy CarStatusData 22)]

/-- `class FinalClassificationData(Packet)` (lines 916-934). -/
def FinalClassificationData : CTy := structOf [
  ("position", .u8),
  ("num_laps", .u8),
  ("grid_position", .u8),
  ("points", .u8),
  ("num_pit_stops", .u8),
  ("result_status", .u8),
  ("best_lap_time_in_ms", .u32),
  ("total_race_time", .f64),
  ("penalties_time", .u8),
  ("num_penalties", .u8),
  ("num_tyre_stints", .u8),
  ("tyre_stints_actual", arrTy .u8 8),
  ("tyre_stints_visual", arrTy .u8 8),
  ("tyre_stints_end_laps", arrTy .u8 8)]

/-- `class PacketFinalClassificationData(Packet)` (lines 937-942). -/
def PacketFinalClassificationData : CTy := structOf [
  ("header", PacketHeader),
  ("num_cars", .u8),
  ("classification_data", arrTy FinalClassificationData 22)]

/-- `class LobbyInfoData(Packet)` (lines 945-955). -/
def LobbyInfoData : CTy := structOf [
  ("ai_controlled", .u8),
  ("team_id", .u8),
  ("nationality", .u8),
  ("platform", .u8),
  ("name", .char 48),
  ("car_number", .u8),
  ("ready_status", .u8)]

/-- `class PacketLobbyInfoData(Packet)` (lines 958-964). -/
def PacketLobbyInfoData : CTy := structOf [
  ("header", PacketHeader),
  ("num_players", .u8),
  ("lobby_players", arrTy LobbyInfoData 22)]

/-- `class CarDamageData(Packet)` (lines 967-1022). -/
def CarDamageData : CTy := structOf [
  ("tyres_wear", arrTy .f32 4),
  ("tyres_damage", arrTy .u8 4),
  ("brakes_damage", arrTy .u8 4),
  ("front_left_wing_damage", .u8),
  ("front_right_wing_damage", .u8),
  ("rear_wing_damage", .u8),
  ("floor_damage", .u8),
  ("diffuser_damage", .u8),
  ("sidepod_damage", .u8),
  ("drs_fault", .u8),
  ("ers_fault", .u8),
  ("gearbox_damage", .u8),
  ("engined_damage", .u8),
  ("engine_mguh_wear", .u8),
  ("engine_energy_store_wear", .u8),
  ("engine_control_electronics_wear", .u8),
  ("engine_internal_combustion_engine_wear", .u8),
  ("engine_mguk_wear", .u8),
  ("engine_turbo_charger_wear", .u8),
  ("engine_blown", .u8),
  ("engine_seized", .u8)]

/-- `class PacketCarDamageData(Packet)` (lines 1025-1029). -/
def PacketCarDamageData : CTy := structOf [
  ("header", PacketHeader),
  ("car_damage_data", arrTy CarDamageData 22)]

/-- `class LapHistoryData(Packet)` (lines 1032-1067).  The source's
`_fields_` list declares eight fields but repeats the name
`sector1_time_minutes` for both the sector-1 minutes byte (seventh byte)
and the sector-3 minutes byte (thirteenth byte), exactly as written. -/
def lapHistoryDataFields : List (String × CTy) := [
  ("lap_time_in_ms", .u32),
  ("sector1_time_in_ms", .u16),
  ("sector1_time_minutes", .u8),
  ("sector2_time_in_ms", .u16),
  ("sector2_time_minutes", .u8),
  ("sector3_time_in_ms", .u16),
  ("sector1_time_minutes", .u8),
  ("lap_valid_bit_flags", .u8)]

/-- The `LapHistoryData` struct type built from its `_fields_`. -/
def LapHistoryData : CTy := structOf lapHistoryDataFields

/-- `class TyreStintHistoryData(Packet)` (lines 1070-1076). -/
def TyreStintHistoryData : CTy := structOf [
  ("end_lap", .u8),
  ("tyre_actual_compound", .u8),
  ("tyre_visual_compound", .u8)]

/-- `class PacketSessionHistoryData(Packet)` (lines 1079-1091). -/
def PacketSessionHistoryData : CTy := structOf [
  ("header", PacketHeader),
  ("car_idx", .u8),
  ("num_laps", .u8),
  ("num_tyre_stints", .u8),
  ("best_lap_time_lap_num", .u8),
  ("best_sector1_lap_num", .u8),
  ("best_sector2_lap_num", .u8),
  ("best_sector3_lap_num", .u8),
  ("lap_history_data", arrTy LapHistoryData 100),
  ("tyre_stints_history_data", arrTy TyreStintHistoryData 8)]

/-- `class TyreSetData(Packet)` (lines 1094-1125).  Note that the source
declares `lap_delta_time` as `ctypes.c_uint16` although the game's wire
format documents it as `int16`. -/
def tyreSetDataFields : List (String × CTy) := [
  ("actual_tyre_compound", .u8),
  ("visual_tyre_compound", .u8),
  ("wear", .u8),
  ("available", .u8),
  ("recommended_session", .u8),
  ("life_span", .u8),
  ("usable_life", .u8),
  ("lap_delta_time", .u16),
  ("fitted", .u8)]

/-- The `TyreSetData` struct type built from its `_fields_`. -/
def TyreSetData : CTy := structOf tyreSetDataFields

/-- `class PacketTyreSetsData(Packet)` (lines 1128-1134). -/
def PacketTyreSetsData : CTy := structOf [
  ("header", PacketHeader),
  ("car_idx", .u8),
  ("tyre_set_data", arrTy TyreSetData 20),
  ("fitted_idx", .u8)]

/-- `class PacketMotionExData(Packet)` (lines 1137-1195).  The last field
`m_wheelVertForce` is declared `ctypes.c_float` (a single float) in the
source even though the class docstring documents `float m_wheelVertForce[4]`. -/
def PacketMotionExData : CTy := structOf [
  ("header", PacketHeader),
  ("m_suspensionPosition", arrTy .f32 4),
  ("m_suspensionVelocity", arrTy .f32 4),
  ("m_suspensionAcceleration", arrTy .f32 4),
  ("m_wheelSpeed", arrTy .f32 4),
  ("m_wheelSlipRatio", arrTy .f32 4),
  ("m_wheelSlipAngle", arrTy .f32 4),
  ("m_wheelLatForce", arrTy .f32 4),
  ("m_wheelLongForce", arrTy .f32 4),
  ("m_heightOfCOGAboveGround", .f32),
  ("m_localVelocityX", .f32),
  ("m_localVelocityY", .f32),
  ("m_localVelocityZ", .f32),
  ("m_angularVelocityX", .f32),
  ("m_angularVelocityY", .f32),
  ("m_angularVelocityZ", .f32),
  ("m_angularAccelerationX", .f32),
  ("m_angularAccelerationY", .f32),
  ("m_angularAccelerationZ", .f32),
  ("m_frontWheelsAngle", .f32),
  ("m_wheelVertForce", .f32)]

/-- `HEADER_FIELD_TO_PACKET_TYPE` (lines 1198-1213): the dispatch table
from `(packet_format, packet_version, packet_id)` to the packet layout.
`packet_format` is read from a `c_int16` field, hence the `Int` key
component. -/
def HEADER_FIELD_TO_PACKET_TYPE : List ((Int × Nat × Nat) × CTy) := [
  ((2023, 1, 0), PacketMotionData),
  ((2023, 1, 1), PacketSessionData),
  ((2023, 1, 2), PacketLapData),
  ((2023, 1, 3), PacketEventData),
  ((2023, 1, 4), PacketParticipantsData),
  ((2023, 1, 5), PacketCarSetupData),
  ((2023, 1, 6), PacketCarTelemetryData),
  ((2023, 1, 7), PacketCarStatusData),
  ((2023, 1, 8), PacketFinalClassificationData),
  ((2023, 1, 9), PacketLobbyInfoData),
  ((2023, 1, 10), PacketCarDamageData),
  ((2023, 1, 11), PacketSessionHistoryData),
  ((2023, 1, 12), PacketTyreSetsData),
  ((2023, 1, 13), PacketMotionExData)]

/-- Dict lookup `HEADER_FIELD_TO_PACKET_TYPE[key]` as performed by
`TelemetryListener.get` (`listener.py` line 29); a missing key raises
`KeyError`, modelled by `none`. -/
def resolve (k : Int × Nat × Nat) : Option CTy :=
  (HEADER_FIELD_TO_PACKET_TYPE.find? (fun e => e.1 = k)).map Prod.snd

/-- The structured content of a decoded ctypes instance: a leaf holds the
raw bytes of a scalar, char buffer or union storage; struct and array
contents are chains of member values in declaration order. -/
inductive CVal : Type where
  | leaf : List Nat → CVal
  | vnil : CVal
  | vcons : CVal → CVal → CVal
deriving DecidableEq, Repr

/-- Whether a ctypes type stores its value as one flat byte region
(scalars, `c_char` buffers and unions, whose members all overlay the same
storage). -/
def CTy.isLeafTy : CTy → Bool
  | .snil | .scons _ _ _ | .anil | .acons _ _ => false
  | _ => true

/-- Well-typedness of a structured value against a ctypes type: leaf
regions carry exactly `sizeof` bytes, struct and array chains match
member-wise. -/
def wt : CVal → CTy → Bool
  | .leaf bs, t => t.isLeafTy && bs.length = t.size
  | .vnil, .snil => true
  | .vnil, .anil => true
  | .vcons v rest, .scons _ t trest => wt v t && wt rest trest
  | .vcons v rest, .acons t trest => wt v t && wt rest trest
  | _, _ => false

/-- Interpretation of a byte buffer under a layout, reading fields in
declaration order at their cumulative offsets (byte-packed, `_pack_ = 1`).
Only the first `sizeof` bytes are ever consumed. -/
def parseVal : CTy → List Nat → CVal
  | .snil, _ => .vnil
  | .anil, _ => .vnil
  | .scons _ t rest, bs => .vcons (parseVal t bs) (parseVal rest (bs.drop t.size))
  | .acons t rest, bs => .vcons (parseVal t bs) (parseVal rest (bs.drop t.size))
  | t, bs => .leaf (bs.take t.size)

/-- `PacketMixin.pack` (`packets.py` lines 38-46): `bytes(self)`, the
concatenation of the instance's stored bytes in declaration order. -/
def pack : CVal → List Nat
  | .leaf bs => bs
  | .vnil => []
  | .vcons v rest => pack v ++ pack rest

/-- `PacketMixin.unpack` (`packets.py` lines 52-61), i.e.
`cls.from_buffer_copy(buffer)`: raises `ValueError` (modelled `none`) when
the buffer holds fewer than `sizeof(cls)` bytes, and otherwise copies the
first `sizeof(cls)` bytes into a fresh instance — a longer buffer is
accepted and its trailing bytes ignored. -/
def unpack (t : CTy) (bs : List Nat) : Option CVal :=
  if t.size ≤ bs.length then some (parseVal t bs) else none

/-- The all-zero instance a ctypes constructor produces. -/
def defaultVal : CTy → CVal
  | .snil => .vnil
  | .anil => .vnil
  | .scons _ t rest => .vcons (defaultVal t) (defaultVal rest)
  | .acons t rest => .vcons (defaultVal t) (defaultVal rest)
  | t => .leaf (List.replicate t.size 0)

/-- Offset and type of the field a named attribute access resolves to.
ctypes installs one class-attribute descriptor per `_fields_` entry in
order, so when a name is repeated the later descriptor overwrites the
earlier one: lookup prefers the match found further down the chain.  All
members of a `ctypes.Union` live at offset 0. -/
def CTy.fieldOff : CTy → String → Option (Nat × CTy)
  | .scons n t rest, name =>
    match rest.fieldOff name with
    | some (o, ft) => some (t.size + o, ft)
    | none => if n = name then some (0, t) else none
  | .ucons n t rest, name =>
    match rest.fieldOff name with
    | some r => some r
    | none => if n = name then some (0, t) else none
  | _, _ => none

/-- Offset and type reached by a chain of attribute accesses, e.g.
`packet.event_details.fastest_lap.vehicle_idx`. -/
def fieldOffPath : CTy → List String → Option (Nat × CTy)
  | t, [] => some (0, t)
  | t, name :: rest =>
    match t.fieldOff name with
    | some (o, ft) =>
      match fieldOffPath ft rest with
      | some (o2, ft2) => some (o + o2, ft2)
      | none => none
    | none => none

/-- Little-endian read of `w` bytes starting at `off` (out-of-range bytes
never arise on a decoded instance, whose buffer covers the whole layout). -/
def readLE (bs : List Nat) (off : Nat) : Nat → Nat
  | 0 => 0
  | w + 1 => bs.getD off 0 + 256 * readLE bs (off + 1) w

/-- Two's-complement reinterpretation of a `w`-bit unsigned value, as the
signed ctypes scalars expose it. -/
def toSigned (n : Nat) (w : Nat) : Int :=
  if n < 2 ^ (w - 1) then (n : Int) else (n : Int) - 2 ^ w

/-- The Python `int` a ctypes integer scalar field evaluates to: unsigned
fields read little-endian, signed fields additionally reinterpret the top
bit.  Non-integer field types yield no `int`. -/
def readPrim (bs : List Nat) (off : Nat) : CTy → Option Int
  | .u8 => some (readLE bs off 1)
  | .u16 => some (readLE bs off 2)
  | .u32 => some (readLE bs off 4)
  | .u64 => some (readLE bs off 8)
  | .i8 => some (toSigned (readLE bs off 1) 8)
  | .i16 => some (toSigned (readLE bs off 2) 16)
  | _ => none

/-- Named attribute access for an integer field on an instance decoded
from `bs`: resolve the (last-wins) descriptor, then read its type at its
offset. -/
def readField (t : CTy) (name : String) (bs : List Nat) : Option Int :=
  match t.fieldOff name with
  | some (o, ft) => readPrim bs o ft
  | none => none

/-- Integer field access through a chain of attribute accesses. -/
def readFieldPath (t : CTy) (path : List String) (bs : List Nat) : Option Int :=
  match fieldOffPath t path with
  | some (o, ft) => readPrim bs o ft
  | none => none

/-- The dispatch key `TelemetryListener.get` builds (`listener.py` line
27): `(header.packet_format, header.packet_version, header.packet_id)`,
read from the decoded header at offsets 0 (signed 16-bit), 5 and 6. -/
def headerKey (bs : List Nat) : Int × Nat × Nat :=
  (toSigned (readLE bs 0 2) 16, readLE bs 5 1, readLE bs 6 1)

/-- `TelemetryListener.get` (`listener.py` lines 23-29) applied to one
received datagram: decode the header with `PacketHeader.from_buffer_copy`
(fails on fewer than 29 bytes), build the dispatch key, index the
dispatch table (a missing key raises `KeyError`, modelled `none`), and
unpack the whole buffer under the resolved layout. -/
def listenerGet (bs : List Nat) : Option CVal :=
  if PacketHeader.size ≤ bs.length then
    match resolve (headerKey bs) with
    | some t => unpack t bs
    | none => none
  else none

/-- The attribute names a struct or union type installs (in declaration
order, duplicates included). -/
def CTy.names : CTy → List String
  | .scons n _ rest => n :: rest.names
  | .ucons n _ rest => n :: rest.names
  | _ => []

/-- The Python-level value of a stored field as ctypes attribute access
exposes it: integers for integer scalars, floats (modelled as exact
rationals) for float scalars, `bytes` for `c_char` buffers (ctypes
truncates these at the first NUL byte on access), strings, and lists for
ctypes arrays of scalars. -/
inductive PyVal : Type where
  | int : Int → PyVal
  | flt : ℚ → PyVal
  | bytesLit : List Nat → PyVal
  | str : String → PyVal
  | intArr : List Int → PyVal
  | fltArr : List ℚ → PyVal
deriving DecidableEq, Repr

/-- Round-half-to-even to the nearest integer, Python's `round` tie rule. -/
def roundHalfEven (q : ℚ) : ℤ :=
  let f := ⌊q⌋
  let r := q - f
  if r < 1 / 2 then f
  else if 1 / 2 < r then f + 1
  else if f % 2 = 0 then f else f + 1

/-- Python's `round(value, 3)` on the rational model of a float. -/
def pyRound3 (q : ℚ) : ℚ := (roundHalfEven (q * 1000) : ℚ) / 1000

/-- Whether a byte is a UTF-8 continuation byte. -/
def isCont (b : Nat) : Bool := 0x80 ≤ b && b < 0xC0

/-- Decode one UTF-8 scalar value strictly, as Python's `bytes.decode()`
does: reject stray continuation bytes, overlong encodings, surrogate code
points and values above U+10FFFF. -/
def utf8DecodeOne : List Nat → Option (Nat × List Nat)
  | [] => none
  | b :: rest =>
    if b < 0x80 then some (b, rest)
    else if b < 0xC2 then none
    else if b < 0xE0 then
      match rest with
      | b1 :: r => if isCont b1 then some ((b - 0xC0) * 0x40 + (b1 - 0x80), r) else none
      | [] => none
    else if b < 0xF0 then
      match rest with
      | b1 :: b2 :: r =>
        if isCont b1 && isCont b2 then
          if (b - 0xE0) * 0x1000 + (b1 - 0x80) * 0x40 + (b2 - 0x80) < 0x800 then none
          else if 0xD800 ≤ (b - 0xE0) * 0x1000 + (b1 - 0x80) * 0x40 + (b2 - 0x80) &&
              (b - 0xE0) * 0x1000 + (b1 - 0x80) * 0x40 + (b2 - 0x80) < 0xE000 then none
          else some ((b - 0xE0) * 0x1000 + (b1 - 0x80) * 0x40 + (b2 - 0x80), r)
        else none
      | _ => none
    else if b < 0xF5 then
      match rest with
      | b1 :: b2 :: b3 :: r =>
        if isCont b1 && isCont b2 && isCont b3 then
          if (b - 0xF0) * 0x40000 + (b1 - 0x80) * 0x1000 + (b2 - 0x80) * 0x40 + (b3 - 0x80)
              < 0x10000 then none
          else if 0x10FFFF <
              (b - 0xF0) * 0x40000 + (b1 - 0x80) * 0x1000 + (b2 - 0x80) * 0x40 + (b3 - 0x80)
            then none
          else some
            ((b - 0xF0) * 0x40000 + (b1 - 0x80) * 0x1000 + (b2 - 0x80) * 0x40 + (b3 - 0x80), r)
        else none
      | _ => none
    else none

/-- Decode a whole byte list as strict UTF-8 (fuelled by the remaining
length; each step consumes at least one byte). -/
def utf8DecodeChars : Nat → List Nat → Option (List Char)
  | _, [] => some []
  | 0, _ :: _ => none
  | fuel + 1, bs =>
    match utf8DecodeOne bs with
    | some (cp, rest) =>
      match utf8DecodeChars fuel rest with
      | some cs => some (Char.ofNat cp :: cs)
      | none => none
    | none => none

/-- Python's strict `bytes.decode()` (UTF-8): the decoded string, or
`none` for a `UnicodeDecodeError` that propagates to the caller — no
character is ever silently replaced. -/
def pyDecodeUtf8 (bs : List Nat) : Option String :=
  (utf8DecodeChars bs.length bs).map fun cs => String.mk cs

/-- ctypes attribute access on a `c_char * n` field: the stored bytes up
to (excluding) the first NUL byte. -/
def cCharGet (bs : List Nat) : List Nat := bs.takeWhile (fun b => b ≠ 0)

/-- `PacketMixin._format_type` (`packets.py` lines 71-87) together with
`_format_array_type` (lines 90-99) on scalar-level values: a Python
`float` is rounded to 3 decimal places, Python `bytes` are decoded as
strict UTF-8 (`value.decode()`, whose `UnicodeDecodeError` propagates),
and every other value — including the elements of scalar ctypes arrays,
which `_format_array_type` appends verbatim — passes through unchanged. -/
def format_type : PyVal → Option PyVal
  | .flt q => some (.flt (pyRound3 q))
  | .bytesLit bs => (pyDecodeUtf8 bs).map PyVal.str
  | .int n => some (.int n)
  | .str s => some (.str s)
  | .intArr ns => some (.intArr ns)
  | .fltArr qs => some (.fltArr qs)

/-- `get_value` composed with ctypes attribute access on a `c_char * n`
field holding the raw fixed-width buffer `raw`: truncate at the first NUL,
then decode strictly. -/
def formatCharField (raw : List Nat) : Option PyVal :=
  format_type (.bytesLit (cCharGet raw))

/-- Last-binding-wins lookup: how both a Python class attribute set by
repeated descriptor assignment and a Python dict built with repeated keys
resolve a name. -/
def lookupLast : List (String × PyVal) → String → Option PyVal
  | [], _ => none
  | (k, v) :: rest, name =>
    match lookupLast rest name with
    | some v2 => some v2
    | none => if k = name then some v else none

/-- `PacketMixin.get_value` (`packets.py` lines 34-36):
`self._format_type(getattr(self, field))`, where `getattr` resolves the
last descriptor installed for the name. -/
def get_value (fs : List (String × PyVal)) (k : String) : Option PyVal :=
  (lookupLast fs k).bind format_type

/-- Iteration of `{k: self.get_value(k) for k, _ in self._fields_}` over
the tail of `_fields_`, with attribute lookups against the whole record. -/
def toDictAux (all : List (String × PyVal)) : List (String × PyVal) →
    Option (List (String × PyVal))
  | [] => some []
  | (k, _) :: rest =>
    match get_value all k, toDictAux all rest with
    | some v, some d => some ((k, v) :: d)
    | _, _ => none

/-- `PacketMixin.to_dict` (`packets.py` lines 63-65): one entry per
`_fields_` name (a repeated name yields one dict key), each value produced
by `get_value`; an exception from any field propagates. -/
def to_dict (fs : List (String × PyVal)) : Option (List (String × PyVal)) :=
  toDictAux fs fs

/-- Packet header bytes with `packet_format = 2023` (little-endian
`[231, 7]`), `game_year = 23`, versions `1.0`, `packet_version = 1`, and
the given `packet_id`; remaining header fields zero.  29 bytes. -/
def headerBytes (pid : Nat) : List Nat :=
  [231, 7, 23, 1, 0, 1, pid] ++ List.replicate 22 0

/-- A 45-byte event packet buffer whose 4-byte event string code is
`"XXXX"` (bytes `[88, 88, 88, 88]`), a code outside the documented set. -/
def eventBufUnknownCode : List Nat :=
  headerBytes 3 ++ [88, 88, 88, 88] ++ List.replicate 12 0

/-- The 19 event string codes documented in the `PacketEventData`
docstring (`packets.py` lines 610-629), as ASCII byte quadruples:
SSTA, SEND, FTLP, RTMT, DRSE, DRSD, TMPT, CHQF, RCWN, PENA, SPTP, STLG,
LGOT, DTSV, SGSV, FLBK, BUTN, RDFL, OVTK. -/
def knownEventStringCodes : List (List Nat) := [
  [83, 83, 84, 65], [83, 69, 78, 68], [70, 84, 76, 80], [82, 84, 77, 84],
  [68, 82, 83, 69], [68, 82, 83, 68], [84, 77, 80, 84], [67, 72, 81, 70],
  [82, 67, 87, 78], [80, 69, 78, 65], [83, 80, 84, 80], [83, 84, 76, 71],
  [76, 71, 79, 84], [68, 84, 83, 86], [83, 71, 83, 86], [70, 76, 66, 75],
  [66, 85, 84, 78], [82, 68, 70, 76], [79, 86, 84, 75]]

/-- Two's-complement little-endian encoding of a signed 16-bit wire
value, as the game writes `m_lapDeltaTime`. -/
def encInt16LE (d : Int) : List Nat :=
  [(d % 65536).toNat % 256, (d % 65536).toNat / 256]

/-- A 10-byte `TyreSetData` buffer whose `lap_delta_time` bytes carry the
signed 16-bit wire value `d`; all other fields zero. -/
def tyreSetWire (d : Int) : List Nat :=
  [0, 0, 0, 0, 0, 0, 0] ++ encInt16LE d ++ [0]

theorem wt_defaultVal : ∀ t : CTy, wt (defaultVal t) t = true := by
  intro t
  induction t with
  | scons n t rest iht ihr => simp [defaultVal, wt, iht, ihr]
  | acons t rest iht ihr => simp [defaultVal, wt, iht, ihr]
  | _ => simp [defaultVal, wt, CTy.isLeafTy]

theorem wt_parseVal : ∀ (t : CTy) (bs : List Nat), t.size ≤ bs.length →
    wt (parseVal t bs) t = true := by
  intro t
  induction t with
  | scons n t rest iht ihr =>
    intro bs h
    simp only [CTy.size] at h
    have h1 : t.size ≤ bs.length := by omega
    have h2 : rest.size ≤ (bs.drop t.size).length := by
      simp [List.length_drop]; omega
    simp [parseVal, wt, iht bs h1, ihr _ h2]
  | acons t rest iht ihr =>
    intro bs h
    simp only [CTy.size] at h
    have h1 : t.size ≤ bs.length := by omega
    have h2 : rest.size ≤ (bs.drop t.size).length := by
      simp [List.length_drop]; omega
    simp [parseVal, wt, iht bs h1, ihr _ h2]
  | _ =>
    intro bs h
    simp_all [parseVal, wt, CTy.isLeafTy, CTy.size, List.length_take]

theorem pack_length_of_wt : ∀ (v : CVal) (t : CTy), wt v t = true →
    (pack v).length = t.size := by
  intro v
  induction v with
  | leaf bs =>
    intro t h
    simp [wt] at h
    simp [pack, h.2]
  | vnil =>
    intro t h
    cases t <;> simp_all [wt, pack, CTy.size]
  | vcons v rest ihv ihr =>
    intro t h
    cases t <;> simp_all [wt, pack, CTy.size]
    case scons n t trest => rw [ihv t h.1, ihr trest h.2]
    case acons t trest => rw [ihv t h.1, ihr trest h.2]

theorem pack_parseVal : ∀ (t : CTy) (bs : List Nat), t.size ≤ bs.length →
    pack (parseVal t bs) = bs.take t.size := by
  intro t
  induction t with
  | scons n t rest iht ihr =>
    intro bs h
    simp only [CTy.size] at h ⊢
    have h1 : t.size ≤ bs.length := by omega
    have h2 : rest.size ≤ (bs.drop t.size).length := by
      simp [List.length_drop]; omega
    simp only [parseVal, pack, iht bs h1, ihr _ h2]
    rw [List.take_add]
  | acons t rest iht ihr =>
    intro bs h
    simp only [CTy.size] at h ⊢
    have h1 : t.size ≤ bs.length := by omega
    have h2 : rest.size ≤ (bs.drop t.size).length := by
      simp [List.length_drop]; omega
    simp only [parseVal, pack, iht bs h1, ihr _ h2]
    rw [List.take_add]
  | _ =>
    intro bs h
    simp [parseVal, pack, CTy.size]

theorem fieldOff_mem_names : ∀ (t : CTy) (name : String) (r : Nat × CTy),
    t.fieldOff name = some r → name ∈ t.names := by
  intro t
  induction t with
  | scons n ty rest ihty ihrest =>
    intro name r h
    simp only [CTy.fieldOff] at h
    cases hr : rest.fieldOff name with
    | some r2 => exact List.mem_cons_of_mem n (ihrest name r2 hr)
    | none =>
      rw [hr] at h
      simp only at h
      split at h
      · simp_all [CTy.names]
      · exact absurd h (by simp)
  | ucons n ty rest ihty ihrest =>
    intro name r h
    simp only [CTy.fieldOff] at h
    cases hr : rest.fieldOff name with
    | some r2 => exact List.mem_cons_of_mem n (ihrest name r2 hr)
    | none =>
      rw [hr] at h
      simp only at h
      split at h
      · simp_all [CTy.names]
      · exact absurd h (by simp)
  | _ =>
    intro name r h
    simp [CTy.fieldOff] at h

theorem lookupLast_eq_none_iff : ∀ (l : List (String × PyVal)) (k : String),
    lookupLast l k = none ↔ k ∉ l.map Prod.fst := by
  intro l k
  induction l with
  | nil => simp [lookupLast]
  | cons p rest ih =>
    obtain ⟨k', v'⟩ := p
    rw [show lookupLast ((k', v') :: rest) k =
        (match lookupLast rest k with
         | some v2 => some v2
         | none => if k' = k then some v' else none) from rfl,
      List.map_cons, List.mem_cons]
    cases h : lookupLast rest k with
    | some v2 =>
      have hmem : k ∈ rest.map Prod.fst := by
        by_contra hc
        rw [ih.mpr hc] at h
        exact absurd h (by simp)
      constructor
      · intro he; exact absurd he (by simp)
      · intro hne; exact absurd (Or.inr hmem) hne
    | none =>
      have hnot : k ∉ rest.map Prod.fst := ih.mp h
      constructor
      · intro he hor
        rcases hor with hk | hk
        · rw [if_pos hk.symm] at he
          exact absurd he (by simp)
        · exact hnot hk
      · intro hne
        exact if_neg (fun hc => hne (Or.inl hc.symm))

theorem toDictAux_map_fst : ∀ (all l d : List (String × PyVal)),
    toDictAux all l = some d → d.map Prod.fst = l.map Prod.fst := by
  intro all l
  induction l with
  | nil => intro d h; simp [toDictAux] at h; simp [← h]
  | cons p rest ih =>
    intro d h
    obtain ⟨k, v⟩ := p
    simp only [toDictAux] at h
    cases hg : get_value all k with
    | none => rw [hg] at h; simp at h
    | some w =>
      rw [hg] at h
      cases hr : toDictAux all rest with
      | none => rw [hr] at h; simp at h
      | some d' =>
        rw [hr] at h
        simp only [Option.some.injEq] at h
        subst h
        simp [ih d' hr]

theorem toDict_lookup : ∀ (all l d : List (String × PyVal)) (k : String),
    toDictAux all l = some d → k ∈ l.map Prod.fst →
    lookupLast d k = get_value all k := by
  intro all l
  induction l with
  | nil => intro d k _ hk; simp at hk
  | cons p rest ih =>
    intro d k h hk
    obtain ⟨k', v'⟩ := p
    simp only [toDictAux] at h
    cases hg : get_value all k' with
    | none => rw [hg] at h; simp at h
    | some w =>
      rw [hg] at h
      cases hr : toDictAux all rest with
      | none => rw [hr] at h; simp at h
      | some d' =>
        rw [hr] at h
        simp only [Option.some.injEq] at h
        subst h
        simp only [lookupLast]
        by_cases hmem : k ∈ rest.map Prod.fst
        · have hlk := ih d' k hr hmem
          cases hgv : get_value all k with
          | some u =>
            have hsome : lookupLast d' k = some u := by rw [hlk, hgv]
            rw [hsome]
          | none =>
            exfalso
            rw [hgv, lookupLast_eq_none_iff, toDictAux_map_fst all rest d' hr] at hlk
            exact hlk hmem
        · have hd' : lookupLast d' k = none := by
            rw [lookupLast_eq_none_iff]
            rw [toDictAux_map_fst all rest d' hr]
            exact hmem
          rw [hd']
          simp only [List.map_cons, List.mem_cons] at hk
          rcases hk with hk | hk
          · subst hk; simp [hg]
          · exact absurd hk hmem

theorem unpack_isSome_iff (t : CTy) (bs : List Nat) :
    (unpack t bs).isSome ↔ t.size ≤ bs.length := by
  by_cases h : t.size ≤ bs.length <;> simp [unpack, h]

theorem resolve_eq_none_of_not_mem : ∀ k : Int × Nat × Nat,
    k ∉ HEADER_FIELD_TO_PACKET_TYPE.map Prod.fst → resolve k = none := by
  intro k hk
  unfold resolve
  rw [List.find?_eq_none.mpr]
  · rfl
  · intro e he hpe
    exact hk (List.mem_map.mpr ⟨e, he, of_decide_eq_true hpe⟩)

theorem cCharGet_append : ∀ (p junk : List Nat), (∀ b ∈ p, b ≠ 0) →
    cCharGet (p ++ 0 :: junk) = p := by
  intro p junk
  induction p with
  | nil => intro _; simp [cCharGet]
  | cons b rest ih =>
    intro h
    have hb : b ≠ 0 := h b (by simp)
    have hr := ih (fun x hx => h x (by simp [hx]))
    simp only [cCharGet] at hr ⊢
    rw [List.cons_append, List.takeWhile_cons, if_pos (by simp [hb]), hr]

theorem getD_lt_256 : ∀ (bs : List Nat), (∀ b ∈ bs, b < 256) →
    ∀ i, bs.getD i 0 < 256 := by
  intro bs h i
  by_cases hi : i < bs.length
  · rw [List.getD_eq_getElem bs 0 hi]
    exact h _ (List.getElem_mem hi)
  · rw [List.getD_eq_default bs 0 (le_of_not_lt hi)]
    norm_num

/-- C1 counterexample: the header is not 24 bytes and the motion packet
is not 24 + 22×60 bytes — `ctypes.sizeof(PacketHeader)` is 29 (2 + 5×1 +
8 + 4 + 4 + 4 + 2×1) because the F1 23 header carries `game_year` and
`overall_frame_identifier`. -/
theorem C1_counterexample :
    PacketHeader.size ≠ 24 ∧ PacketMotionData.size ≠ 24 + 22 * 60 := by
  decide

/-- C1 (amended): the common packet header is a fixed 29-byte prefix,
and the motion record layout, the layout the dispatch key (2023, 1, 0)
resolves to, has total byte size 29 + 22×60 = 1349. -/
theorem C1_header_size :
    PacketHeader.size = 29 ∧
    resolve (2023, 1, 0) = some PacketMotionData ∧
    CarMotionData.size = 60 ∧
    PacketMotionData.size = 29 + 22 * 60 := by
  decide

/-- C2 counterexample: a 45-byte event buffer whose 4-byte code is
`"XXXX"` — not one of the 19 documented codes — decodes successfully
through the full `TelemetryListener.get` path; no `UnknownEventCode`
failure exists. -/
theorem C2_counterexample :
    (eventBufUnknownCode.drop 29).take 4 = [88, 88, 88, 88] ∧
    [88, 88, 88, 88] ∉ knownEventStringCodes ∧
    (listenerGet eventBufUnknownCode).isSome = true := by
  decide

/-- C2 (amended): decoding an event packet never inspects the 4-byte
discriminant — it succeeds exactly when the buffer holds at least the
45-byte layout, whatever the code.  The trailing bytes are a C union
overlaying all 12 sub-records at the same offset: under the fastest-lap
view the 1-byte vehicle index sits at offset 33 and the 4-byte float lap
time at offset 34, but other variants' fields are populated from the very
same storage — the retirement view's vehicle index reads the same byte. -/
theorem C2_event_union :
    (∀ bs : List Nat, (unpack PacketEventData bs).isSome ↔
      PacketEventData.size ≤ bs.length) ∧
    PacketEventData.size = 45 ∧
    fieldOffPath PacketEventData ["event_details", "fastest_lap", "vehicle_idx"] =
      some (33, .u8) ∧
    fieldOffPath PacketEventData ["event_details", "fastest_lap", "lap_time"] =
      some (34, .f32) ∧
    fieldOffPath PacketEventData ["event_details", "retirement", "vehicle_idx"] =
      some (33, .u8) ∧
    ∀ bs : List Nat,
      readFieldPath PacketEventData ["event_details", "fastest_lap", "vehicle_idx"] bs =
        some (bs.getD 33 0 : Int) ∧
      readFieldPath PacketEventData ["event_details", "retirement", "vehicle_idx"] bs =
        readFieldPath PacketEventData ["event_details", "fastest_lap", "vehicle_idx"] bs := by
  refine ⟨fun bs => unpack_isSome_iff _ bs, by decide, by decide, by decide, by decide, ?_⟩
  intro bs
  constructor
  · simp [readFieldPath,
      show fieldOffPath PacketEventData ["event_details", "fastest_lap", "vehicle_idx"] =
        some (33, CTy.u8) from by decide, readPrim, readLE]
  · simp [readFieldPath,
      show fieldOffPath PacketEventData ["event_details", "fastest_lap", "vehicle_idx"] =
        some (33, CTy.u8) from by decide,
      show fieldOffPath PacketEventData ["event_details", "retirement", "vehicle_idx"] =
        some (33, CTy.u8) from by decide]

/-- C3 counterexample: a 30-byte buffer — longer than the 29-byte header
layout — is decoded successfully by `unpack` (`from_buffer_copy` only
rejects buffers that are too small), refuting "decoding succeeds only if
`len(b) == L.size()`". -/
theorem C3_counterexample :
    (List.replicate 30 0).length ≠ PacketHeader.size ∧
    (unpack PacketHeader (List.replicate 30 0)).isSome = true := by
  decide

/-- C3 (amended): for every layout and buffer, `unpack` succeeds exactly
when the buffer holds at least `size()` bytes; a shorter buffer fails
(`ValueError`, never zero-padded), while a longer buffer is accepted and
silently truncated: the decoded record's bytes are exactly the buffer's
first `size()` bytes, so its `pack` has length `size()`. -/
theorem C3_unpack_size :
    ∀ (t : CTy) (bs : List Nat),
      ((unpack t bs).isSome ↔ t.size ≤ bs.length) ∧
      ∀ v, unpack t bs = some v →
        pack v = bs.take t.size ∧ (pack v).length = t.size := by
  intro t bs
  refine ⟨unpack_isSome_iff t bs, fun v hv => ?_⟩
  have hlen : t.size ≤ bs.length := by
    have := (unpack_isSome_iff t bs).mp (by rw [hv]; rfl)
    exact this
  have hval : v = parseVal t bs := by
    unfold unpack at hv
    rw [if_pos hlen] at hv
    exact (Option.some.injEq _ _).mp hv.symm
  subst hval
  refine ⟨pack_parseVal t bs hlen, ?_⟩
  exact pack_length_of_wt _ t (wt_parseVal t bs hlen)

/-- Closed instance of C3: decoding the 29-byte header layout from a
30-byte zero buffer yields a record that packs back to the first 29
bytes. -/
theorem C3_witness :
    pack (parseVal PacketHeader (List.replicate 30 0)) =
      (List.replicate 30 0).take PacketHeader.size ∧
    (pack (parseVal PacketHeader (List.replicate 30 0))).length =
      PacketHeader.size :=
  (C3_unpack_size PacketHeader (List.replicate 30 0)).2
    (parseVal PacketHeader (List.replicate 30 0)) (by decide)

/-- C4: a dispatch key absent from `HEADER_FIELD_TO_PACKET_TYPE` makes
`resolve` fail (`KeyError`), and `TelemetryListener.get` on any buffer
whose header carries such a key returns no record — there is no fallback,
default or nearest-match layout. -/
theorem C4_unregistered_key_fails :
    ∀ k : Int × Nat × Nat, k ∉ HEADER_FIELD_TO_PACKET_TYPE.map Prod.fst →
      resolve k = none ∧
      ∀ bs : List Nat, headerKey bs = k → listenerGet bs = none := by
  intro k hk
  have hr := resolve_eq_none_of_not_mem k hk
  refine ⟨hr, fun bs hb => ?_⟩
  unfold listenerGet
  rw [hb, hr]
  by_cases hlen : PacketHeader.size ≤ bs.length
  · simp [hlen]
  · simp [hlen]

/-- Closed instance of C4: the key (2023, 1, 14) — one past the last
registered packet id — is unregistered, does not resolve, and a 29-byte
buffer with that header decodes to nothing. -/
theorem C4_witness :
    resolve (2023, 1, 14) = none ∧ listenerGet (headerBytes 14) = none :=
  have h := C4_unregistered_key_fails (2023, 1, 14) (by decide)
  ⟨h.1, h.2 (headerBytes 14) (by decide)⟩

/-- C5: the dispatch table has pairwise-distinct keys and resolves every
registered kind; the lap-data layout (kind 2) is 1131 bytes and the
session-history layout (kind 11) is 1460 bytes as documented — but the
extended-motion layout (kind 13) is 205 bytes, not the 217 bytes its own
docstring documents, because `m_wheelVertForce` is declared as a single
`ctypes.c_float` instead of `ctypes.c_float * 4`. -/
theorem C5_registered_sizes :
    (HEADER_FIELD_TO_PACKET_TYPE.map Prod.fst).Nodup ∧
    resolve (2023, 1, 2) = some PacketLapData ∧ PacketLapData.size = 1131 ∧
    resolve (2023, 1, 11) = some PacketSessionHistoryData ∧
    PacketSessionHistoryData.size = 1460 ∧
    resolve (2023, 1, 13) = some PacketMotionExData ∧
    PacketMotionExData.size = 205 ∧ PacketMotionExData.size ≠ 217 := by
  decide

theorem pyRound3_example : pyRound3 (123456789 / 1000000) = 123457 / 1000 := by
  have hf : ⌊(123456789 / 1000000 * 1000 : ℚ)⌋ = 123456 := by
    rw [Int.floor_eq_iff]
    norm_num
  unfold pyRound3 roundHalfEven
  rw [hf]
  norm_num

/-- C6: canonicalization rounds a scalar float field to 3 decimal places
(Python `round`, ties to even): whenever a record stores a float `q` under
a field name, the dict `to_dict` produces carries `pyRound3 q` under that
name while the record's stored attribute is unchanged (the embedding is
pure — `round` builds a new value and `to_dict` writes nothing back); a
raw value of 123.456789 canonicalizes to 123.457. -/
theorem C6_float_rounding :
    (∀ (fs : List (String × PyVal)) (k : String) (q : ℚ)
        (d : List (String × PyVal)),
      lookupLast fs k = some (.flt q) → to_dict fs = some d →
      lookupLast d k = some (.flt (pyRound3 q)) ∧
        lookupLast fs k = some (.flt q)) ∧
    pyRound3 (123456789 / 1000000) = 123457 / 1000 := by
  refine ⟨?_, pyRound3_example⟩
  intro fs k q d hget hdict
  have hmem : k ∈ fs.map Prod.fst := by
    by_contra hc
    rw [(lookupLast_eq_none_iff fs k).mpr hc] at hget
    exact absurd hget (by simp)
  have hlk := toDict_lookup fs fs d k hdict hmem
  refine ⟨?_, hget⟩
  rw [hlk]
  simp only [get_value, hget, Option.some_bind]
  rfl

/-- Closed instance of C6: a one-field record storing the float
123.456789 canonicalizes that field to its 3-decimal rounding. -/
theorem C6_witness :
    lookupLast [("x", PyVal.flt (pyRound3 (123456789 / 1000000)))] "x" =
      some (PyVal.flt (pyRound3 (123456789 / 1000000))) ∧
    lookupLast [("x", PyVal.flt (123456789 / 1000000))] "x" =
      some (PyVal.flt (123456789 / 1000000)) :=
  C6_float_rounding.1 [("x", PyVal.flt (123456789 / 1000000))] "x"
    (123456789 / 1000000)
    [("x", PyVal.flt (pyRound3 (123456789 / 1000000)))] rfl rfl

/-- C7: the participant name is a fixed 48-byte `c_char` buffer at offset
7; canonicalizing a character-buffer field decodes strictly as UTF-8 after
truncating at the first NUL byte, so the bytes after the terminator are
ignored (never appended) and an invalid-UTF-8 prefix makes the decode
error propagate instead of replacing characters. -/
theorem C7_char_field_utf8 :
    ParticipantData.fieldOff "name" = some (7, .char 48) ∧
    ∀ (p junk : List Nat), (∀ b ∈ p, b ≠ 0) →
      formatCharField (p ++ 0 :: junk) = (pyDecodeUtf8 p).map PyVal.str ∧
      (pyDecodeUtf8 p = none → formatCharField (p ++ 0 :: junk) = none) := by
  refine ⟨by decide, fun p junk hp => ?_⟩
  have h : formatCharField (p ++ 0 :: junk) = (pyDecodeUtf8 p).map PyVal.str := by
    unfold formatCharField
    rw [cCharGet_append p junk hp]
    rfl
  exact ⟨h, fun hn => by rw [h, hn]; rfl⟩

/-- Closed instance of C7: a 48-byte buffer holding `b"Max"` followed by
45 NUL bytes canonicalizes to the string "Max". -/
theorem C7_witness :
    formatCharField ([77, 97, 120] ++ 0 :: List.replicate 44 0) =
      some (.str "Max") := by
  have h := (C7_char_field_utf8.2 [77, 97, 120] (List.replicate 44 0)
    (by decide)).1
  rw [h]
  rfl

/-- C8: for every layout the dispatch table resolves and every well-typed
record of that layout, the serialized bytes have exactly the layout's
computed size. -/
theorem C8_pack_size :
    ∀ (k : Int × Nat × Nat) (t : CTy), resolve k = some t →
      ∀ v : CVal, wt v t = true → (pack v).length = t.size :=
  fun _ t _ v hv => pack_length_of_wt v t hv

/-- Closed instance of C8: a freshly constructed (zeroed) tyre-sets
record packs to exactly 231 bytes. -/
theorem C8_witness :
    (pack (defaultVal PacketTyreSetsData)).length = PacketTyreSetsData.size :=
  C8_pack_size (2023, 1, 12) PacketTyreSetsData (by decide)
    (defaultVal PacketTyreSetsData) (wt_defaultVal PacketTyreSetsData)

theorem fieldOff_fst_ne (t : CTy) (n : String) (r : Nat × CTy) (m : Nat)
    (h : t.fieldOff n = some r)
    (hne : (t.fieldOff n).map Prod.fst ≠ some m) : r.1 ≠ m := by
  intro hc
  apply hne
  rw [h, ← hc]
  rfl

/-- C9: `LapHistoryData._fields_` declares eight fields totalling 14
bytes but repeats the name `sector1_time_minutes`; named access resolves
to the later descriptor, the byte at offset 12 (the sector-3 minutes),
`to_dict` exposes only seven distinct keys, and no field name reaches the
byte at offset 6. -/
theorem C9_lap_history_duplicate :
    LapHistoryData.size = 14 ∧
    lapHistoryDataFields.length = 8 ∧
    (lapHistoryDataFields.map Prod.fst).dedup.length = 7 ∧
    LapHistoryData.fieldOff "sector1_time_minutes" = some (12, .u8) ∧
    (∀ bs : List Nat, readField LapHistoryData "sector1_time_minutes" bs =
      some (bs.getD 12 0 : Int)) ∧
    (∀ (name : String) (r : Nat × CTy),
      LapHistoryData.fieldOff name = some r → r.1 ≠ 6) := by
  refine ⟨by decide, by decide, by decide, by decide, ?_, ?_⟩
  · intro bs
    simp [readField,
      show LapHistoryData.fieldOff "sector1_time_minutes" = some (12, CTy.u8)
        from by decide, readPrim, readLE]
  · intro name r h
    have hmem := fieldOff_mem_names _ _ _ h
    have hnames : CTy.names LapHistoryData = ["lap_time_in_ms",
      "sector1_time_in_ms", "sector1_time_minutes", "sector2_time_in_ms",
      "sector2_time_minutes", "sector3_time_in_ms", "sector1_time_minutes",
      "lap_valid_bit_flags"] := by decide
    rw [hnames] at hmem
    simp only [List.mem_cons, List.not_mem_nil, or_false] at hmem
    rcases hmem with rfl | rfl | rfl | rfl | rfl | rfl | rfl | rfl <;>
      exact fieldOff_fst_ne _ _ _ _ h (by decide)

/-- Closed instance of C9: on a decoded buffer whose bytes are
0, 1, ..., 13, the attribute `sector1_time_minutes` reads 12 — the byte
at offset 12, not the sector-1 minutes byte at offset 6 — and that offset
is not 6. -/
theorem C9_witness :
    readField LapHistoryData "sector1_time_minutes"
      [0, 1, 2, 3, 4, 5, 6, 7, 8, 9, 10, 11, 12, 13] = some 12 ∧
    (12, CTy.u8).1 ≠ 6 := by
  constructor
  · have h := C9_lap_history_duplicate.2.2.2.2.1
      [0, 1, 2, 3, 4, 5, 6, 7, 8, 9, 10, 11, 12, 13]
    simpa using h
  · exact C9_lap_history_duplicate.2.2.2.2.2 "sector1_time_minutes"
      (12, CTy.u8) (by decide)

theorem tyreSet_lap_delta_read : ∀ bs : List Nat,
    readField TyreSetData "lap_delta_time" bs =
      some ((bs.getD 7 0 + 256 * bs.getD 8 0 : Nat) : Int) := by
  intro bs
  simp [readField,
    show TyreSetData.fieldOff "lap_delta_time" = some (7, CTy.u16)
      from by decide, readPrim, readLE]

/-- C10: `TyreSetData.lap_delta_time` is declared `c_uint16`, so its
decoded value is the little-endian unsigned value of the two bytes at
offsets 7-8, always in [0, 65535]; a wire value written as a negative
signed int16 delta `d` therefore surfaces as `d + 65536`, never as a
negative number. -/
theorem C10_lap_delta_unsigned :
    TyreSetData.fieldOff "lap_delta_time" = some (7, .u16) ∧
    (∀ bs : List Nat, readField TyreSetData "lap_delta_time" bs =
      some ((bs.getD 7 0 + 256 * bs.getD 8 0 : Nat) : Int)) ∧
    (∀ bs : List Nat, (∀ b ∈ bs, b < 256) → ∀ v : Int,
      readField TyreSetData "lap_delta_time" bs = some v →
      0 ≤ v ∧ v < 65536) ∧
    (∀ d : Int, -32768 ≤ d → d < 0 →
      readField TyreSetData "lap_delta_time" (tyreSetWire d) =
        some (d + 65536)) := by
  refine ⟨by decide, tyreSet_lap_delta_read, ?_, ?_⟩
  · intro bs hb v hv
    rw [tyreSet_lap_delta_read bs] at hv
    have h7 := getD_lt_256 bs hb 7
    have h8 := getD_lt_256 bs hb 8
    have hv2 : v = ((bs.getD 7 0 + 256 * bs.getD 8 0 : Nat) : Int) :=
      ((Option.some.injEq _ _).mp hv).symm
    subst hv2
    constructor
    · positivity
    · push_cast
      omega
  · intro d h1 h2
    rw [tyreSet_lap_delta_read (tyreSetWire d)]
    have h7 : (tyreSetWire d).getD 7 0 = (d % 65536).toNat % 256 := rfl
    have h8 : (tyreSetWire d).getD 8 0 = (d % 65536).toNat / 256 := rfl
    rw [h7, h8]
    simp only [Option.some.injEq]
    omega

/-- Closed instance of C10: a wire delta of -5 (int16 two's complement,
bytes `[251, 255]`) surfaces as 65531 = -5 + 65536, a value in
[0, 65535]. -/
theorem C10_witness :
    readField TyreSetData "lap_delta_time" (tyreSetWire (-5)) =
      some 65531 ∧ (0 : Int) ≤ 65531 ∧ (65531 : Int) < 65536 := by
  have hd := C10_lap_delta_unsigned.2.2.2 (-5) (by norm_num) (by norm_num)
  have hr : readField TyreSetData "lap_delta_time" (tyreSetWire (-5)) =
      some 65531 := by rw [hd]; norm_num
  have hv := C10_lap_delta_unsigned.2.2.1 (tyreSetWire (-5)) (by decide)
    65531 hr
  exact ⟨hr, hv⟩
